import Mathlib

/-!
Verification of the `exasol-labs/sample-data` generators.

The repository consists of two Python scripts:

* `src/generators/Generate_Products.py` — builds an N-row product table
  (id, category, name, price, inventory, margin) from fixed vocabularies and
  a seeded random generator, then writes it to a columnar file.
* `src/generators/Generate_Reviews.py` — streams product rows in batches and
  emits zero or more persona-attributed review records per product.

This file is a shallow embedding of those scripts in Lean 4.  Python floats
are modelled as exact rationals (`ℚ`): every float literal of the source is
rendered as the rational it denotes (`0.15` ↦ `15/100`).  NumPy's seeded
generator is modelled as a deterministic stream of raw words (`Nat → Nat`)
together with a position; each primitive draw consumes one word.
`numpy.random.Generator.random` yields 53 random bits scaled by `2 ^ (-53)`,
which is modelled exactly by `unitFloat`.  Strings are Lean `String`s
(sequences of `Char`s, matching Python's `len`/slice semantics on the ASCII
data used here).  File I/O, the Parquet/CSV encoding layer and wall-clock
timestamp formatting are outside the embedding, as are the exact weighted
index chosen by `numpy.random.Generator.choice` (the draw is modelled as an
arbitrary index into the outcome list supplied by the stream; all claims
quantify over the support, not the distribution, of such draws).
-/

namespace SampleData

/-- The scaled 53-bit output of `numpy.random.Generator.random`: a rational
in `[0, 1)` obtained from a raw word of the stream. -/
def unitFloat (w : Nat) : ℚ := ((w % 2 ^ 53 : Nat) : ℚ) / 2 ^ 53

theorem unitFloat_nonneg (w : Nat) : 0 ≤ unitFloat w := by
  unfold unitFloat; positivity

theorem unitFloat_lt_one (w : Nat) : unitFloat w < 1 := by
  unfold unitFloat
  rw [div_lt_one (by positivity)]
  exact_mod_cast Nat.mod_lt _ (by positivity)

/-- A probability vector over the five ratings 1..5, indexed 0..4 exactly as
the NumPy array `probs` of `Generate_Reviews.py`. -/
structure P5 where
  p0 : ℚ
  p1 : ℚ
  p2 : ℚ
  p3 : ℚ
  p4 : ℚ

/-- The value of `probs.sum()` for a five-entry probability array. -/
def P5.sum (p : P5) : ℚ := p.p0 + p.p1 + p.p2 + p.p3 + p.p4

/-- `BASE_RATING_PROBS = np.array([0.07, 0.11, 0.22, 0.33, 0.27])`
(Generate_Reviews.py line 53). -/
def BASE_RATING_PROBS : P5 := ⟨7/100, 11/100, 22/100, 33/100, 27/100⟩

/-- The `CATEGORY_BIASES` table of `Generate_Reviews.py` (lines 55-62), in
source order. -/
def CATEGORY_BIASES : List (String × ℚ) :=
  [("Electronics", -10/100), ("Automotive", -8/100), ("Tools", -5/100),
   ("Clothing", 2/100), ("Shoes", 1/100), ("Toys", 3/100), ("Books", 8/100),
   ("Music", 6/100), ("Movies", 4/100), ("Health", 0), ("Beauty", 3/100),
   ("Grocery", 2/100), ("Home", 3/100), ("Garden", 1/100), ("Sports", 0),
   ("Office", 2/100), ("Pets", 4/100), ("Baby", 5/100), ("Outdoors", -2/100),
   ("Jewelry", 5/100), ("General", 0)]

/-- `CATEGORY_BIASES.get(category, CATEGORY_BIASES.get("General", 0.0))`
(Generate_Reviews.py line 103). -/
def biasFor (category : String) : ℚ :=
  ((CATEGORY_BIASES.lookup category).getD
    ((CATEGORY_BIASES.lookup "General").getD 0))

/-- Elementwise model of `np.clip(x, 1e-6, 1.0)` on one entry. -/
def clipQ (x : ℚ) : ℚ := max (1/1000000) (min x 1)

/-- `np.clip(probs, 1e-6, 1.0)` (Generate_Reviews.py line 130). -/
def P5.clipAll (p : P5) : P5 :=
  ⟨clipQ p.p0, clipQ p.p1, clipQ p.p2, clipQ p.p3, clipQ p.p4⟩

/-- `probs /= probs.sum()` (Generate_Reviews.py line 131). -/
def P5.normalize (p : P5) : P5 :=
  ⟨p.p0 / p.sum, p.p1 / p.sum, p.p2 / p.sum, p.p3 / p.sum, p.p4 / p.sum⟩

/-- Body of `adjust_probs_for_category` (Generate_Reviews.py lines 102-132)
with the bias already looked up.  When the bias is zero the input is returned
unchanged; otherwise mass is moved between the low buckets (indices 0,1) and
the high buckets (indices 3,4) and the result is clipped to `[1e-6, 1]` and
renormalized. -/
def adjustProbs (bias : ℚ) (probs : P5) : P5 :=
  if bias = 0 then probs
  else
    let shift : ℚ := max (min (bias * (5/10)) (15/100)) (-(15/100))
    let redistributed : P5 :=
      if 0 < shift then
        let moveFromLow := shift * (probs.p0 + probs.p1)
        if 0 < moveFromLow then
          let red0 := probs.p0 * (moveFromLow / (probs.p0 + probs.p1))
          let red1 := probs.p1 * (moveFromLow / (probs.p0 + probs.p1))
          let additionTotal := probs.p3 + probs.p4
          if additionTotal ≤ 0 then
            ⟨probs.p0 - red0, probs.p1 - red1, probs.p2,
             probs.p3 + moveFromLow * (5/10), probs.p4 + moveFromLow * (5/10)⟩
          else
            ⟨probs.p0 - red0, probs.p1 - red1, probs.p2,
             probs.p3 + moveFromLow * (probs.p3 / additionTotal),
             probs.p4 + moveFromLow * (probs.p4 / additionTotal)⟩
        else probs
      else
        let moveFromHigh := (-shift) * (probs.p3 + probs.p4)
        if 0 < moveFromHigh then
          let red3 := probs.p3 * (moveFromHigh / (probs.p3 + probs.p4))
          let red4 := probs.p4 * (moveFromHigh / (probs.p3 + probs.p4))
          let additionTotal := probs.p0 + probs.p1
          if additionTotal ≤ 0 then
            ⟨probs.p0 + moveFromHigh * (5/10), probs.p1 + moveFromHigh * (5/10),
             probs.p2, probs.p3 - red3, probs.p4 - red4⟩
          else
            ⟨probs.p0 + moveFromHigh * (probs.p0 / additionTotal),
             probs.p1 + moveFromHigh * (probs.p1 / additionTotal),
             probs.p2, probs.p3 - red3, probs.p4 - red4⟩
        else probs
    redistributed.clipAll.normalize

/-- `adjust_probs_for_category(base_probs, category)`: look the bias up in
the table (falling back to the "General" bias) and adjust. -/
def adjustProbsForCategory (base : P5) (category : String) : P5 :=
  adjustProbs (biasFor category) base

theorem clipQ_ge (x : ℚ) : 1/1000000 ≤ clipQ x := le_max_left _ _

theorem clipQ_pos (x : ℚ) : 0 < clipQ x :=
  lt_of_lt_of_le (by norm_num) (clipQ_ge x)

theorem clipAll_sum_pos (p : P5) : 0 < p.clipAll.sum := by
  have h0 := clipQ_pos p.p0
  have h1 := clipQ_pos p.p1
  have h2 := clipQ_pos p.p2
  have h3 := clipQ_pos p.p3
  have h4 := clipQ_pos p.p4
  unfold P5.clipAll P5.sum
  dsimp only
  linarith

theorem normalize_clipAll_valid (p : P5) :
    0 < p.clipAll.normalize.p0 ∧ 0 < p.clipAll.normalize.p1 ∧
    0 < p.clipAll.normalize.p2 ∧ 0 < p.clipAll.normalize.p3 ∧
    0 < p.clipAll.normalize.p4 ∧ p.clipAll.normalize.sum = 1 := by
  have hs := clipAll_sum_pos p
  have h0 := clipQ_pos p.p0
  have h1 := clipQ_pos p.p1
  have h2 := clipQ_pos p.p2
  have h3 := clipQ_pos p.p3
  have h4 := clipQ_pos p.p4
  refine ⟨div_pos h0 hs, div_pos h1 hs, div_pos h2 hs, div_pos h3 hs,
    div_pos h4 hs, ?_⟩
  show p.clipAll.p0 / p.clipAll.sum + p.clipAll.p1 / p.clipAll.sum +
    p.clipAll.p2 / p.clipAll.sum + p.clipAll.p3 / p.clipAll.sum +
    p.clipAll.p4 / p.clipAll.sum = 1
  rw [div_add_div_same, div_add_div_same, div_add_div_same, div_add_div_same]
  exact div_self (ne_of_gt hs)

/-- C1 (amended): for every bias in `[-1, 1]` and every base vector of five
strictly positive probabilities summing to 1, `adjust_probs_for_category`
returns a valid probability distribution — every entry strictly positive and
the entries summing exactly to 1 (the clip-to-floor-and-renormalize step
guarantees this for every nonzero bias, and a zero bias returns the input,
which is already valid when its entries are positive). -/
theorem adjustProbs_valid (bias : ℚ) (p : P5)
    (hb1 : -1 ≤ bias) (hb2 : bias ≤ 1)
    (h0 : 0 < p.p0) (h1 : 0 < p.p1) (h2 : 0 < p.p2) (h3 : 0 < p.p3)
    (h4 : 0 < p.p4) (hsum : p.sum = 1) :
    0 < (adjustProbs bias p).p0 ∧ 0 < (adjustProbs bias p).p1 ∧
    0 < (adjustProbs bias p).p2 ∧ 0 < (adjustProbs bias p).p3 ∧
    0 < (adjustProbs bias p).p4 ∧ (adjustProbs bias p).sum = 1 := by
  by_cases hb : bias = 0
  · simp only [adjustProbs, if_pos hb]
    exact ⟨h0, h1, h2, h3, h4, hsum⟩
  · simp only [adjustProbs, if_neg hb]
    exact normalize_clipAll_valid _

/-- Witness for `adjustProbs_valid`: the Electronics bias `-0.10` applied to
the base rating distribution. -/
theorem adjustProbs_valid_witness :
    (-1 : ℚ) ≤ -10/100 ∧ (adjustProbs (-10/100) BASE_RATING_PROBS).sum = 1 :=
  ⟨by norm_num,
    (adjustProbs_valid (-10/100) BASE_RATING_PROBS (by norm_num) (by norm_num)
      (by norm_num [BASE_RATING_PROBS]) (by norm_num [BASE_RATING_PROBS])
      (by norm_num [BASE_RATING_PROBS]) (by norm_num [BASE_RATING_PROBS])
      (by norm_num [BASE_RATING_PROBS])
      (by norm_num [BASE_RATING_PROBS, P5.sum])).2.2.2.2.2⟩

/-- Counterexample to C1 as stated: the category "Health" carries bias `0`,
which lies in `[-1, 1]`, and the vector `(0, 0, 0, 0, 1)` is five
probabilities summing to 1; yet `adjust_probs_for_category` returns it
unchanged (the zero-bias early return skips the clip/renormalize step), so
the first output entry is not strictly positive. -/
theorem adjustProbs_claim_cex :
    biasFor "Health" = 0 ∧
    (-1 : ℚ) ≤ biasFor "Health" ∧ biasFor "Health" ≤ 1 ∧
    (P5.mk 0 0 0 0 1).sum = 1 ∧
    ¬ 0 < (adjustProbsForCategory ⟨0, 0, 0, 0, 1⟩ "Health").p0 := by
  have hbias : biasFor "Health" = 0 := by rfl
  have hval : (adjustProbsForCategory ⟨0, 0, 0, 0, 1⟩ "Health").p0 = 0 := by
    rfl
  refine ⟨hbias, by rw [hbias]; norm_num, by rw [hbias]; norm_num,
    by norm_num [P5.sum], ?_⟩
  rw [hval]
  norm_num

/-- The fixed weight list `[0.20, 0.28, 0.22, 0.15, 0.10, 0.05]` of
`choose_num_reviews` (Generate_Reviews.py line 138). -/
def REVIEW_COUNT_WEIGHTS : List ℚ := [20/100, 28/100, 22/100, 15/100, 10/100, 5/100]

/-- `weights = [0.20, 0.28, 0.22, 0.15, 0.10, 0.05][: max_reviews + 1]`. -/
def reviewWeights (maxReviews : Nat) : List ℚ :=
  REVIEW_COUNT_WEIGHTS.take (maxReviews + 1)

/-- `weights /= weights.sum()` (Generate_Reviews.py line 140). -/
def reviewWeightsNormalized (maxReviews : Nat) : List ℚ :=
  (reviewWeights maxReviews).map (fun w => w / (reviewWeights maxReviews).sum)

/-- Model of `rng.choice(a, p=p)`: NumPy raises unless `len(p) == len(a)`
(modelled as `none`); otherwise it returns `a[i]` for an index `i` carrying
positive probability, selected according to the weights.  The index is taken
from the random stream; all claims quantify only over the support of the
draw, never over its distribution. -/
def npChoiceWeighted {α : Type} (a : List α) (p : List ℚ) (i : Nat) : Option α :=
  if p.length = a.length ∧ 0 < p.getD i 0 then a[i]? else none

/-- `choose_num_reviews(rng, max_reviews)` (Generate_Reviews.py lines
135-141): 0 without a draw when `max_reviews < 1`, otherwise a weighted
choice over `range(max_reviews + 1)`. -/
def chooseNumReviews (maxReviews : Nat) (i : Nat) : Option Nat :=
  if maxReviews < 1 then some 0
  else npChoiceWeighted (List.range (maxReviews + 1))
    (reviewWeightsNormalized maxReviews) i

/-- Counterexample to C4 as stated: the fixed weight list is not decreasing —
already for maximum `M = 1` the truncated weights rise from `0.20` (zero
reviews) to `0.28` (one review) — and for `M = 6` the truncation yields only
6 weights, not the `M + 1 = 7` outcomes the claim requires (NumPy's size
check then rejects the draw). -/
theorem chooseNumReviews_claim_cex :
    (reviewWeights 1).getD 0 0 < (reviewWeights 1).getD 1 0 ∧
    (reviewWeights 6).length = 6 ∧ 6 + 1 ≠ 6 := by
  refine ⟨?_, by rfl, by norm_num⟩
  norm_num [reviewWeights, REVIEW_COUNT_WEIGHTS]

/-- C4 (amended): for every maximum `M ≤ 5` and every drawn index the
sampled count lies in `[0, M]`.  For `M = 0` the sampler returns 0
deterministically on the `max_reviews < 1` early path — no weight list is
built, truncated or drawn from.  For `1 ≤ M ≤ 5` it draws from the fixed
weight list `[0.20, 0.28, 0.22, 0.15, 0.10, 0.05]` truncated to exactly
`M + 1` outcomes and renormalized to sum 1; that list is unimodal, not
decreasing (it rises from 0.20 to its mode 0.28 at one review and decreases
from there).  For every `M ≥ 6` the truncation still yields only 6 weights
for `M + 1` outcomes, so the NumPy draw fails its size check and no count
is drawn at all. -/
theorem chooseNumReviews_range (M i : Nat) (h5 : M ≤ 5) :
    (∀ r, chooseNumReviews M i = some r → r ≤ M) ∧
    (M = 0 → chooseNumReviews M i = some 0) ∧
    (1 ≤ M → (reviewWeights M).length = M + 1 ∧
      (reviewWeightsNormalized M).sum = 1) ∧
    ∀ mBig j, 6 ≤ mBig → chooseNumReviews mBig j = none := by
  refine ⟨?_, ?_, fun h1 => ⟨?_, ?_⟩, ?_⟩
  · intro r hr
    by_cases hM : M < 1
    · rw [chooseNumReviews, if_pos hM] at hr
      rw [Option.some.injEq] at hr
      omega
    · rw [chooseNumReviews, if_neg hM] at hr
      rw [npChoiceWeighted] at hr
      split at hr
      · rw [List.getElem?_eq_some] at hr
        obtain ⟨hi, hval⟩ := hr
        rw [List.getElem_range] at hval
        rw [List.length_range] at hi
        omega
      · exact absurd hr (by simp)
  · intro hM
    rw [chooseNumReviews, if_pos (by omega)]
  · show (REVIEW_COUNT_WEIGHTS.take (M + 1)).length = M + 1
    rw [List.length_take]
    show min (M + 1) REVIEW_COUNT_WEIGHTS.length = M + 1
    have : REVIEW_COUNT_WEIGHTS.length = 6 := by rfl
    omega
  · interval_cases M <;>
      norm_num [reviewWeightsNormalized, reviewWeights, REVIEW_COUNT_WEIGHTS]
  · intro mBig j h6
    rw [chooseNumReviews, if_neg (by omega), npChoiceWeighted]
    apply if_neg
    intro hcon
    have hlen := hcon.1
    rw [reviewWeightsNormalized, List.length_map, reviewWeights,
      List.length_take, List.length_range] at hlen
    have h6len : REVIEW_COUNT_WEIGHTS.length = 6 := by rfl
    rw [h6len] at hlen
    omega

/-- Witness for `chooseNumReviews_range`: at `M = 0` the count is 0 with no
draw, at `M = 3` the truncation has 4 outcomes renormalized to sum 1, and at
`M = 6` the draw fails. -/
theorem chooseNumReviews_range_witness :
    chooseNumReviews 0 7 = some 0 ∧
    (reviewWeights 3).length = 3 + 1 ∧
    (reviewWeightsNormalized 3).sum = 1 ∧
    chooseNumReviews 6 0 = none :=
  ⟨(chooseNumReviews_range 0 7 (by norm_num)).2.1 rfl,
   ((chooseNumReviews_range 3 2 (by norm_num)).2.2.1 (by norm_num)).1,
   ((chooseNumReviews_range 3 2 (by norm_num)).2.2.1 (by norm_num)).2,
   (chooseNumReviews_range 3 2 (by norm_num)).2.2.2 6 0 (by norm_num)⟩

/-- The inner loop `for _ in range(n_reviews)` of `main`
(Generate_Reviews.py lines 264-282): starting from counter `c`, each of the
`n` emitted rows receives the current `review_id_counter`, which is then
incremented.  Returns the emitted ids in order with the final counter. -/
def emitReviews (c : Nat) : Nat → List Nat × Nat
  | 0 => ([], c)
  | Nat.succ n =>
      let rest := emitReviews (c + 1) n
      (c :: rest.1, rest.2)

/-- One batch of the product loop: the review counts of the batch's products
processed in order, threading the counter. -/
def emitBatch (c : Nat) : List Nat → List Nat × Nat
  | [] => ([], c)
  | n :: ns =>
      let first := emitReviews c n
      let rest := emitBatch first.2 ns
      (first.1 ++ rest.1, rest.2)

/-- A whole run of `main`: the batches produced by the streaming reader,
processed in order; `review_id_counter` persists across batches
(Generate_Reviews.py line 250 initializes it to 1). -/
def emitRun (c : Nat) : List (List Nat) → List Nat × Nat
  | [] => ([], c)
  | b :: bs =>
      let first := emitBatch c b
      let rest := emitRun first.2 bs
      (first.1 ++ rest.1, rest.2)

theorem range'_append_eq (s m n : Nat) :
    List.range' s m ++ List.range' (s + m) n = List.range' s (m + n) := by
  have h := List.range'_append s m n 1
  simpa [Nat.add_comm] using h

theorem emitReviews_eq (n c : Nat) :
    emitReviews c n = (List.range' c n, c + n) := by
  induction n generalizing c with
  | zero => rfl
  | succ n ih =>
      rw [emitReviews, ih (c + 1)]
      simp [List.range'_succ]
      omega

theorem emitBatch_eq (l : List Nat) (c : Nat) :
    emitBatch c l = (List.range' c l.sum, c + l.sum) := by
  induction l generalizing c with
  | nil => rfl
  | cons n ns ih =>
      rw [emitBatch, emitReviews_eq, ih (c + n)]
      rw [List.sum_cons]
      rw [range'_append_eq]
      simp [Nat.add_assoc]

theorem emitRun_eq (bs : List (List Nat)) (c : Nat) :
    emitRun c bs = (List.range' c (bs.map List.sum).sum,
      c + (bs.map List.sum).sum) := by
  induction bs generalizing c with
  | nil => rfl
  | cons b rest ih =>
      rw [emitRun, emitBatch_eq, ih (c + b.sum)]
      rw [List.map_cons, List.sum_cons]
      rw [range'_append_eq]
      simp [Nat.add_assoc]

/-- C2: over one entire review-generation run, for every way the products'
review counts are split into batches, the emitted `review_id` values are
exactly `1, 2, 3, …` in emission order — strictly increasing and globally
unique — the counter starts at 1 and ends at one plus the number of emitted
reviews (one increment per review), and the emitted ids are the same as if
all products were processed as a single batch (batch size does not matter). -/
theorem review_ids_strictly_increasing (batches : List (List Nat)) :
    (emitRun 1 batches).1 = List.range' 1 (emitRun 1 batches).1.length ∧
    (emitRun 1 batches).1.Pairwise (· < ·) ∧
    (emitRun 1 batches).1.Nodup ∧
    (emitRun 1 batches).2 = 1 + (emitRun 1 batches).1.length ∧
    emitRun 1 batches = emitBatch 1 batches.flatten := by
  rw [emitRun_eq, emitBatch_eq]
  have hlen : (List.range' 1 (batches.map List.sum).sum).length
      = (batches.map List.sum).sum := by simp
  refine ⟨by rw [hlen], ?_, ?_, by rw [hlen], ?_⟩
  · exact List.pairwise_lt_range' 1 (batches.map List.sum).sum
  · exact (List.pairwise_lt_range' 1 (batches.map List.sum).sum).imp
      (fun h => Nat.ne_of_lt h)
  · rw [List.sum_flatten]

/-- The seeded NumPy generator `np.random.default_rng(seed)`, modelled as a
deterministic stream of raw words together with the current position.  The
stream itself is a pure function of the seed (NumPy's PCG64 guarantee), so
one run is fully described by the pair. -/
structure Rng where
  stream : Nat → Nat
  pos : Nat

/-- Draw one raw word and advance. -/
def Rng.next (r : Rng) : Nat × Rng :=
  (r.stream r.pos, ⟨r.stream, r.pos + 1⟩)

/-- `rng.choice(l)`: an element of `l` selected by the next word (uniformly
in NumPy; the embedding keeps only the fact that the selected index is a
function of the stream). -/
def Rng.choice {α : Type} (r : Rng) (l : List α) (d : α) : α × Rng :=
  let n := r.next
  (l.getD (n.1 % l.length) d, n.2)

/-- `rng.random()`: the next word scaled to a rational in `[0, 1)`. -/
def Rng.unit (r : Rng) : ℚ × Rng :=
  let n := r.next
  (unitFloat n.1, n.2)

/-- `rng.integers(lo, hi)`: an integer in `[lo, hi)` from the next word. -/
def Rng.intRange (r : Rng) (lo hi : Nat) : Nat × Rng :=
  let n := r.next
  (lo + n.1 % (hi - lo), n.2)

/-- The `CATEGORY_PRODUCTS` table of `Generate_Products.py` (lines 31-227):
the 20 fixed categories in source (dict-insertion) order, each with its
fixed base-phrase list. -/
def CATEGORY_PRODUCTS : List (String × List String) :=
  [("Electronics",
    ["Wireless Bluetooth Earbuds", "Noise Cancelling Headphones",
     "Portable Power Bank 20000mAh", "USB-C Fast Charger 65W",
     "4K Streaming Stick", "Smart Speaker with Alexa", "1080p USB Webcam",
     "Mechanical Gaming Keyboard", "Ergonomic Wireless Mouse",
     "27-inch 4K Monitor", "Wi-Fi 6 Router", "External SSD 1TB"]),
   ("Computers & Accessories",
    ["Laptop Stand Adjustable Aluminum", "USB-C Hub Multiport Adapter",
     "HDMI Cable 6ft 4K", "Bluetooth Keyboard for Tablet",
     "Gaming Mouse Pad Extended", "Webcam Privacy Cover (Pack of 3)",
     "Portable Laptop Charger", "DisplayPort Cable 8K",
     "NVMe SSD Enclosure USB-C", "Ethernet Adapter USB 3.0"]),
   ("Smart Home",
    ["Smart Plug Mini (4 Pack)", "Smart LED Light Bulb Color Changing",
     "Video Doorbell Camera", "Indoor Security Camera 1080p",
     "Smart Thermostat", "Smart Light Switch", "Robot Vacuum Cleaner",
     "Smart Smoke Detector", "Smart Motion Sensor",
     "Smart Door Lock Keyless Entry"]),
   ("Home & Kitchen",
    ["Stainless Steel Water Bottle 32oz", "Nonstick Frying Pan 12-inch",
     "Air Fryer 6 Quart", "Electric Kettle Temperature Control",
     "Memory Foam Pillow", "Vacuum Storage Bags (10 Pack)",
     "Kitchen Knife Set with Block", "Dish Drying Rack",
     "Bamboo Cutting Board Set", "LED Desk Lamp Dimmable"]),
   ("Furniture",
    ["Ergonomic Office Chair with Lumbar Support", "Standing Desk Converter",
     "Bookshelf 5-Tier Industrial", "Storage Ottoman Bench",
     "Side Table with Charging Station", "Adjustable Bar Stools Set of 2",
     "Computer Desk with Shelves", "Accent Chair Modern"]),
   ("Tools & Home Improvement",
    ["Cordless Drill Driver Kit", "Digital Laser Measuring Tool",
     "Socket Wrench Set 108-Piece", "Utility Knife Retractable",
     "Heavy Duty Extension Cord 25ft", "LED Work Light Rechargeable",
     "Stud Finder with Deep Scan", "Smart Tape Measure",
     "Screwdriver Set Magnetic"]),
   ("Sports & Outdoors",
    ["Yoga Mat Non-Slip", "Adjustable Dumbbells Pair",
     "Resistance Bands Set", "Insulated Water Bottle",
     "Camping Lantern LED", "Hiking Backpack 40L",
     "Trekking Poles Collapsible", "Fitness Tracker Watch",
     "Inflatable Sleeping Pad", "Bike Phone Mount"]),
   ("Clothing",
    ["Men's Performance T-Shirt", "Women's High-Waisted Leggings",
     "Unisex Hoodie Fleece", "Men's Slim Fit Jeans", "Women's Summer Dress",
     "Athletic Socks Cushioned (6 Pack)", "Winter Beanie Knit",
     "Rain Jacket Lightweight"]),
   ("Shoes",
    ["Men's Running Shoes Breathable", "Women's Walking Shoes",
     "Slip-On Sneakers", "Hiking Boots Waterproof", "Casual Loafers",
     "Training Shoes Lightweight"]),
   ("Beauty & Personal Care",
    ["Electric Toothbrush Rechargeable", "Facial Cleanser Gentle",
     "Vitamin C Serum for Face", "Hair Dryer Ionic", "Beard Trimmer Kit",
     "Sunscreen SPF 50", "Moisturizing Body Lotion", "Makeup Brush Set"]),
   ("Health & Household",
    ["Digital Thermometer", "Blood Pressure Monitor",
     "First Aid Kit 200 Piece", "Hand Sanitizer Gel", "Air Purifier HEPA",
     "Laundry Detergent Pods", "Disinfecting Wipes",
     "Pain Relief Patches"]),
   ("Baby",
    ["Baby Diapers Size 3 (120 Count)", "Baby Wipes Sensitive (8 Pack)",
     "Convertible Car Seat", "Baby Monitor with Camera",
     "Portable Changing Pad", "Silicone Baby Bibs (3 Pack)"]),
   ("Pet Supplies",
    ["Dry Dog Food 20lb", "Cat Litter Clumping 40lb",
     "Dog Training Pads (100 Count)", "Interactive Cat Toy",
     "Pet Grooming Brush", "Dog Leash Heavy Duty", "Cat Water Fountain"]),
   ("Toys & Games",
    ["Building Blocks Set 500pcs", "Remote Control Car",
     "Puzzle 1000 Pieces", "Board Game Family Edition", "STEM Science Kit",
     "Dollhouse Furniture Set", "Kids Art Supplies Kit"]),
   ("Books",
    ["Hardcover Notebook Dotted", "Cookbook: Quick & Easy Meals",
     "Science Fiction Novel Bestseller", "Children's Picture Book",
     "Productivity Planner Weekly", "Language Learning Workbook"]),
   ("Office Products",
    ["Ballpoint Pens Black (12 Pack)", "Wireless Label Maker",
     "Desk Organizer Mesh", "Sticky Notes Assorted Colors",
     "Printer Paper 500 Sheets", "Ergonomic Wrist Rest",
     "Whiteboard Markers Set"]),
   ("Video Games",
    ["Gaming Controller Wireless", "Gaming Headset Surround Sound",
     "Mechanical Keyboard RGB", "Console Charging Dock",
     "Gaming Chair Mat"]),
   ("Automotive",
    ["Car Phone Mount Magnetic", "Jump Starter Battery Pack",
     "Tire Inflator Portable Air Compressor", "Windshield Sun Shade",
     "Car Vacuum Cleaner Handheld", "OBD2 Scanner Diagnostic Tool"]),
   ("Industrial & Scientific",
    ["Safety Glasses Anti-Fog", "Nitrile Gloves Box of 100",
     "Digital Caliper Stainless Steel", "Labeling Tape Refill",
     "ESD Anti-Static Wrist Strap", "Infrared Thermometer Gun"]),
   ("Arts, Crafts & Sewing",
    ["Acrylic Paint Set 24 Colors", "Sketchbook Hardcover A4",
     "Hot Glue Gun Kit", "Knitting Needles Set", "Craft Scissors Titanium",
     "Sewing Thread Set 60 Spools"])]

/-- `categories = list(CATEGORY_PRODUCTS.keys())` (Generate_Products.py
line 304). -/
def categories : List String := CATEGORY_PRODUCTS.map Prod.fst

/-- `BRANDS` (Generate_Products.py lines 230-236). -/
def BRANDS : List String :=
  ["Anker", "Samsung", "Sony", "Logitech", "Amazon Basics", "Apple",
   "HP", "Dell", "ASUS", "Lenovo", "Bose", "Philips", "Nike", "Adidas",
   "Under Armour", "Instant Pot", "Shark", "Dyson", "Fitbit", "Ring",
   "TP-Link", "Roku", "JBL", "Belkin", "Xiaomi", "Spigen", "Hydro Flask",
   "Brita", "KitchenAid", "LEGO"]

/-- `QUALIFIERS` (Generate_Products.py lines 237-241). -/
def QUALIFIERS : List String :=
  ["New", "2026 Model", "Upgraded", "Premium", "Ultra", "Pro",
   "Compact", "Lightweight", "Heavy Duty", "High Performance",
   "Fast Charging", "Waterproof", "Wireless", "Rechargeable"]

/-- `BUNDLE_HINTS` (Generate_Products.py lines 242-248): the repeated empty
strings make "no bundle" more likely. -/
def BUNDLE_HINTS : List String :=
  ["", "", "", " (2 Pack)", " (3 Pack)", " (4 Pack)", " Bundle"]

/-- `COLORS` (Generate_Products.py lines 249-256). -/
def COLORS : List String :=
  ["", "", "", " - Black", " - White", " - Blue", " - Gray", " - Red"]

/-- `SIZES` (Generate_Products.py lines 257-268). -/
def SIZES : List String :=
  ["", "", "", "", " Small", " Medium", " Large", " XL",
   " 1TB", " 2TB", " 64GB", " 128GB", " 20000mAh"]

/-- `make_amazon_title(rng, base)` (Generate_Products.py lines 271-292):
optional brand, optional qualifier (with probability 0.75), base phrase with
an optional size suffix, optional color and bundle suffixes, all drawn in
source order, then whitespace-normalized. -/
def makeAmazonTitle (r : Rng) (base : String) : String × Rng :=
  let cb := r.choice BRANDS ""
  let ru := cb.2.unit
  let qual : String × Rng :=
    if ru.1 < 75/100 then ru.2.choice QUALIFIERS "" else ("", ru.2)
  let cs := qual.2.choice SIZES ""
  let cc := cs.2.choice COLORS ""
  let cbd := cc.2.choice BUNDLE_HINTS ""
  let parts := [cb.1] ++ (if qual.1 ≠ "" then [qual.1] else []) ++ [base ++ cs.1]
  let title := (String.intercalate " " (parts.filter (fun p => p ≠ ""))).trim
  let title2 := (title ++ cc.1 ++ cbd.1).trim
  (String.intercalate " "
    ((title2.split (fun ch => ch.isWhitespace)).filter (fun p => p ≠ "")),
   cbd.2)

/-- One generated product row (the six columns of the output table). -/
structure ProductRow where
  id : Nat
  product_category : String
  product_name : String
  price_usd : ℚ
  inventory_count : Nat
  margin : ℚ

/-- `ids = np.arange(1, rows + 1)` (Generate_Products.py line 309). -/
def productIds (rows : Nat) : List Nat := List.range' 1 rows

/-- `cat_idx = (ids - 1) % len(categories)` and
`product_categories = [categories[i] for i in cat_idx]`
(Generate_Products.py lines 312-313). -/
def productCategoriesFor (rows : Nat) : List String :=
  (productIds rows).map (fun i => categories.getD ((i - 1) % categories.length) "")

/-- The name-sampling loop (Generate_Products.py lines 315-318): per product
category, a uniformly chosen base phrase passed through the title
assembler. -/
def productNamesGo (r : Rng) : List String → List String × Rng
  | [] => ([], r)
  | cat :: rest =>
      let cb := r.choice ((CATEGORY_PRODUCTS.lookup cat).getD []) ""
      let t := makeAmazonTitle cb.2 cb.1
      let more := productNamesGo t.2 rest
      (t.1 :: more.1, more.2)

/-- NumPy's banker's rounding (`np.round` rounds halves to even). -/
def roundHalfEven (x : ℚ) : ℤ :=
  if x - ⌊x⌋ < 5/10 then ⌊x⌋
  else if 5/10 < x - ⌊x⌋ then ⌊x⌋ + 1
  else if ⌊x⌋ % 2 = 0 then ⌊x⌋ else ⌊x⌋ + 1

/-- `np.round(x, d)`: round to `d` decimal places, halves to even. -/
def roundDec (d : Nat) (x : ℚ) : ℚ :=
  ((roundHalfEven (x * 10 ^ d) : ℤ) : ℚ) / 10 ^ d

/-- `rng.uniform(low, high)` from one raw word:
`low + (high - low) * random()`. -/
def npUniform (low high : ℚ) (w : Nat) : ℚ := low + (high - low) * unitFloat w

/-- One entry of `np.round(rng.uniform(4.99, 999.99, rows), 2)`
(Generate_Products.py line 326). -/
def priceAt (w : Nat) : ℚ := roundDec 2 (npUniform (499/100) (99999/100) w)

/-- One entry of `rng.integers(0, 250_000, rows, dtype=np.int32)`
(Generate_Products.py line 327): a bounded draw reduced into `[0, 250000)`. -/
def inventoryAt (w : Nat) : Nat := w % 250000

/-- One entry of `np.round(rng.uniform(0.05, 0.75, rows), 4)`
(Generate_Products.py line 328). -/
def marginAt (w : Nat) : ℚ := roundDec 4 (npUniform (5/100) (75/100) w)

/-- `rows` raw words drawn off the stream (one NumPy vectorized draw of
length `rows`). -/
def rawWords (r : Rng) : Nat → List Nat × Rng
  | 0 => ([], r)
  | Nat.succ k =>
      let d := r.next
      let rest := rawWords d.2 k
      (d.1 :: rest.1, rest.2)

/-- Column-wise assembly of the `pd.DataFrame` (Generate_Products.py lines
321-330): the i-th row takes the i-th entry of each column. -/
def assembleRows : List Nat → List String → List String → List ℚ → List Nat
    → List ℚ → List ProductRow
  | i :: is, c :: cs, n :: ns, p :: ps, v :: vs, m :: ms =>
      ⟨i, c, n, p, v, m⟩ :: assembleRows is cs ns ps vs ms
  | _, _, _, _, _, _ => []

/-- `main` of `Generate_Products.py` (lines 295-338) up to the Parquet
write: the whole generated table as a function of the seeded stream and the
row count.  Draw order follows the source: one base-phrase and title drawing
pass over the categories, then the price, inventory and margin columns. -/
def buildProductTable (r : Rng) (rows : Nat) : List ProductRow × Rng :=
  let cats := productCategoriesFor rows
  let names := productNamesGo r cats
  let pw := rawWords names.2 rows
  let iw := rawWords pw.2 rows
  let mw := rawWords iw.2 rows
  (assembleRows (productIds rows) cats names.1 (pw.1.map priceAt)
    (iw.1.map inventoryAt) (mw.1.map marginAt), mw.2)

/-- C3: for every positive row count the fixed category list has exactly 20
entries (the startup integrity check), the generated ids are exactly the set
`{1..N}` — `N` of them, without repetition — and the row at 0-based index
`i` (id `i + 1`) receives the category at index `i % 20 = (id - 1) % 20` of
the fixed ordering. -/
theorem product_ids_dense (N : Nat) (hN : 0 < N) :
    categories.length = 20 ∧
    (productIds N).length = N ∧
    (productIds N).Nodup ∧
    (∀ k, k ∈ productIds N ↔ 1 ≤ k ∧ k ≤ N) ∧
    ∀ i, i < N → (productCategoriesFor N).getD i "" = categories.getD (i % 20) "" := by
  refine ⟨by rfl, by simp [productIds], ?_, ?_, ?_⟩
  · exact (List.pairwise_lt_range' 1 N).imp (fun h => Nat.ne_of_lt h)
  · intro k
    rw [productIds, List.mem_range'_1]
    omega
  · intro i hi
    have hlen : i < (productCategoriesFor N).length := by
      simp [productCategoriesFor, productIds]
      omega
    rw [List.getD_eq_getElem _ _ hlen]
    have h20 : categories.length = 20 := by rfl
    simp [productCategoriesFor, productIds, h20]

/-- Witness for `product_ids_dense`: the rows=100 scenario — 100 rows with
ids 1..100, and both row 1 and row 21 (ids 1 and 21) land on category index
0, "Electronics". -/
theorem product_ids_dense_witness :
    (productIds 100).length = 100 ∧
    (1 ∈ productIds 100 ∧ 100 ∈ productIds 100) ∧
    (productCategoriesFor 100).getD 0 "" = "Electronics" ∧
    (productCategoriesFor 100).getD 20 "" = "Electronics" := by
  have h := product_ids_dense 100 (by norm_num)
  refine ⟨h.2.1, ⟨(h.2.2.2.1 1).mpr (by norm_num), (h.2.2.2.1 100).mpr (by norm_num)⟩, ?_, ?_⟩
  · rw [h.2.2.2.2 0 (by norm_num)]; rfl
  · rw [h.2.2.2.2 20 (by norm_num)]; rfl

/-- C5: the generated product table (all six columns) is a deterministic
function of the seeded random stream and the row count — two runs with equal
seed (hence equal streams, by NumPy's PCG64 determinism) and equal row count
produce the identical table.  No other input (wall clock, environment)
enters the construction. -/
theorem productTable_deterministic (g g' : Rng) (N : Nat) (h : g = g') :
    buildProductTable g N = buildProductTable g' N := by rw [h]

/-- Witness for `productTable_deterministic` on a concrete stream and two
rows. -/
theorem productTable_deterministic_witness :
    buildProductTable ⟨fun _ => 0, 0⟩ 2 = buildProductTable ⟨fun _ => 0, 0⟩ 2 :=
  productTable_deterministic ⟨fun _ => 0, 0⟩ ⟨fun _ => 0, 0⟩ 2 rfl

theorem npUniform_bounds (low high : ℚ) (w : Nat) (h : low < high) :
    low ≤ npUniform low high w ∧ npUniform low high w < high := by
  have h0 := unitFloat_nonneg w
  have h1 := unitFloat_lt_one w
  constructor
  · have : 0 ≤ (high - low) * unitFloat w :=
      mul_nonneg (by linarith) h0
    unfold npUniform; linarith
  · have : (high - low) * unitFloat w < (high - low) * 1 := by
      exact mul_lt_mul_of_pos_left h1 (by linarith)
    unfold npUniform; linarith

theorem roundHalfEven_bounds (x : ℚ) :
    ⌊x⌋ ≤ roundHalfEven x ∧ roundHalfEven x ≤ ⌊x⌋ + 1 := by
  unfold roundHalfEven
  split_ifs <;> omega

theorem roundDec_mem (d : Nat) (x : ℚ) (lo hi : ℤ)
    (h1 : (lo : ℚ) ≤ x * 10 ^ d) (h2 : x * 10 ^ d < (hi : ℚ)) :
    (lo : ℚ) / 10 ^ d ≤ roundDec d x ∧ roundDec d x ≤ (hi : ℚ) / 10 ^ d := by
  have hb := roundHalfEven_bounds (x * 10 ^ d)
  have hfl : lo ≤ ⌊x * 10 ^ d⌋ := Int.le_floor.mpr h1
  have hfu : ⌊x * 10 ^ d⌋ < hi := Int.floor_lt.mpr h2
  have hlo : (lo : ℚ) ≤ ((roundHalfEven (x * 10 ^ d) : ℤ) : ℚ) := by
    exact_mod_cast le_trans hfl hb.1
  have hhi : ((roundHalfEven (x * 10 ^ d) : ℤ) : ℚ) ≤ (hi : ℚ) := by
    exact_mod_cast le_trans hb.2 (by omega)
  have hp : (0 : ℚ) < 10 ^ d := by positivity
  constructor
  · rw [roundDec, div_le_div_iff_of_pos_right hp]; exact hlo
  · rw [roundDec, div_le_div_iff_of_pos_right hp]; exact hhi

/-- C6: every generated price lies in `[4.99, 999.99]` (a multiple of 0.01
after rounding to 2 decimals), every inventory count is an integer in
`[0, 250000)`, and every margin lies in `[0.05, 0.75]` (4 decimals) —
for every raw word the seeded stream can supply to the three column
draws. -/
theorem product_numeric_bounds (w v m : Nat) :
    499/100 ≤ priceAt w ∧ priceAt w ≤ 99999/100 ∧
    inventoryAt v < 250000 ∧
    5/100 ≤ marginAt m ∧ marginAt m ≤ 75/100 := by
  have hp := npUniform_bounds (499/100) (99999/100) w (by norm_num)
  have hm := npUniform_bounds (5/100) (75/100) m (by norm_num)
  have hprice := roundDec_mem 2 (npUniform (499/100) (99999/100) w) 499 99999
    (by push_cast; nlinarith [hp.1]) (by push_cast; nlinarith [hp.2])
  have hmargin := roundDec_mem 4 (npUniform (5/100) (75/100) m) 500 7500
    (by push_cast; nlinarith [hm.1]) (by push_cast; nlinarith [hm.2])
  refine ⟨?_, ?_, Nat.mod_lt _ (by norm_num), ?_, ?_⟩
  · have := hprice.1; rw [priceAt]; push_cast at this ⊢; linarith
  · have := hprice.2; rw [priceAt]; push_cast at this ⊢; linarith
  · have := hmargin.1; rw [marginAt]; push_cast at this ⊢; linarith
  · have := hmargin.2; rw [marginAt]; push_cast at this ⊢; linarith

/-- `MAX_REVIEW_CHARS = 100_000` (Generate_Reviews.py line 22). -/
def MAX_REVIEW_CHARS : Nat := 100000

/-- `safe_truncate(text, max_chars)` (Generate_Reviews.py lines 157-158):
`text if len(text) <= max_chars else text[: max_chars - 1]`. -/
def safeTruncate (text : String) (maxChars : Nat) : String :=
  if text.length ≤ maxChars then text else text.take (maxChars - 1)

/-- One persona template of the `PERSONAS` table (Generate_Reviews.py lines
26-51). -/
structure Persona where
  persona : String
  first_names : List String
  last_names : List String
  age_lo : Nat
  age_hi : Nat
  locations : List String
  focus : String

/-- The `PERSONAS` table (Generate_Reviews.py lines 26-51) in source
order. -/
def PERSONAS : List Persona :=
  [⟨"Tech Enthusiast", ["Alex", "Jordan", "Taylor", "Sam", "Riley", "Casey"],
    ["Ng", "Patel", "Garcia", "Smith", "Khan", "Brown"], 22, 45,
    ["San Francisco, CA", "Berlin, DE", "London, UK", "Austin, TX"],
    "performance"⟩,
   ⟨"Bargain Hunter", ["Jamie", "Morgan", "Avery", "Charlie"],
    ["Diaz", "Chen", "O'Neill", "Lopez"], 25, 60,
    ["Nashville, TN", "Madrid, ES", "Chicago, IL"], "value"⟩,
   ⟨"Parent Reviewer", ["Pat", "Kelly", "Dana", "Robin"],
    ["Williams", "Miller", "Wilson", "Davis"], 30, 50,
    ["Seattle, WA", "Paris, FR", "Toronto, CA"], "durability"⟩,
   ⟨"Outdoor Enthusiast", ["Blake", "Drew", "Harper", "Parker"],
    ["Hunt", "Stone", "Wells", "Fisher"], 20, 55,
    ["Denver, CO", "Vancouver, CA", "Rotorua, NZ"], "weatherproofing"⟩,
   ⟨"Home Chef", ["Maya", "Noah", "Liam", "Ivy"],
    ["Singh", "Martinez", "Rossi", "Keller"], 24, 65,
    ["Rome, IT", "Melbourne, AU", "Boston, MA"], "ease_of_use"⟩,
   ⟨"Audiophile", ["Evan", "Kai", "Zoe", "Nina"],
    ["Park", "Hernandez", "Lopez", "Morris"], 18, 50,
    ["Tokyo, JP", "Seoul, KR", "Brooklyn, NY"], "sound_quality"⟩,
   ⟨"Frequent Traveler", ["Chris", "Patrice", "Jo", "Samir"],
    ["Baker", "Singh", "Ali", "Johnson"], 28, 58,
    ["Dubai, AE", "Singapore, SG", "Los Angeles, CA"], "portability"⟩,
   ⟨"Pet Owner", ["Lena", "Omar", "Bea", "Hannah"],
    ["Ramirez", "Gonzalez", "Brown", "Evans"], 21, 70,
    ["Minneapolis, MN", "Dublin, IE", "Lima, PE"], "safety"⟩]

/-- The reviewer fields returned by `sample_persona` (Generate_Reviews.py
lines 93-99). -/
structure PersonaFields where
  reviewer_name : String
  reviewer_persona : String
  reviewer_age : Nat
  reviewer_location : String
  persona_focus : String

/-- `sample_persona(rng)` (Generate_Reviews.py lines 86-99): persona, first
name, last name, age and location drawn in source order. -/
def samplePersona (r : Rng) : PersonaFields × Rng :=
  let cp := r.choice PERSONAS ⟨"", [], [], 0, 0, [], ""⟩
  let cf := cp.2.choice cp.1.first_names ""
  let cl := cf.2.choice cp.1.last_names ""
  let ca := cl.2.intRange cp.1.age_lo (cp.1.age_hi + 1)
  let cloc := ca.2.choice cp.1.locations ""
  ({ reviewer_name := cf.1 ++ " " ++ cl.1,
     reviewer_persona := cp.1.persona,
     reviewer_age := ca.1,
     reviewer_location := cloc.1,
     persona_focus := cp.1.focus }, cloc.2)

/-- One rating tier of `BASE_TEMPLATES` (Generate_Reviews.py lines
64-80). -/
structure RatingTpl where
  openers : List String
  middles : List String
  closers : List String

/-- The `BASE_TEMPLATES` table (Generate_Reviews.py lines 64-80), keyed by
rating 1..5.  A missing key raises in Python; it is modelled by the empty
tier as lookup default, and the sampler only ever produces ratings 1..5. -/
def BASE_TEMPLATES : List (Nat × RatingTpl) :=
  [(1, ⟨["Terrible experience with", "I regret buying",
         "Completely unsatisfied with"],
        ["It broke after a few uses and support did nothing.",
         "The build felt cheap and failed.",
         "Multiple defects and poor reliability."],
        ["Would not recommend.", "Save your money.",
         "I returned it and asked for a refund."]⟩),
   (2, ⟨["Disappointing overall for", "Not what I expected from",
         "Mixed feelings about"],
        ["Works sometimes but has flaws.",
         "Some features are fine but execution lacks.",
         "Disappointing quality in several places."],
        ["There are better options.", "I probably won't buy again.",
         "Needs improvement."]⟩),
   (3, ⟨["It's okay for", "Average experience with",
         "Works as expected for"],
        ["It does the job but doesn't excel.",
         "Reasonable quality at this price.", "Has pros and cons."],
        ["A decent neutral pick.",
         "Satisfactory if you need something simple.",
         "Not exceptional but usable."]⟩),
   (4, ⟨["Pretty pleased with", "Good value in", "Solid performance for"],
        ["Performs reliably and feels well constructed.",
         "Met expectations and pleasant to use.",
         "A few small issues, but overall positive."],
        ["Would recommend.", "Good buy.", "I'd purchase again."]⟩),
   (5, ⟨["Absolutely love", "Fantastic product:",
         "Exceeded expectations with"],
        ["Top-tier quality and attention to detail.",
         "Performs flawlessly and is a joy to use.",
         "Everything feels premium and reliable."],
        ["Highly recommended!", "Five stars.", "Worth every penny."]⟩)]

/-- The persona-specific lead-in phrase of `make_review_text`
(Generate_Reviews.py lines 166-183). -/
def personaPhraseFor (focus : String) : String :=
  if focus = "performance" then "As someone who values performance, "
  else if focus = "value" then "As someone who looks for value, "
  else if focus = "durability" then "With kids in the house, "
  else if focus = "weatherproofing" then "I use it outdoors often, so "
  else if focus = "ease_of_use" then
    "I cook a lot and care about ease of use, so "
  else if focus = "sound_quality" then "As an audiophile, "
  else if focus = "portability" then "I travel a lot, so "
  else if focus = "safety" then "With pets around, "
  else ""

/-- `make_review_text(rng, rating, product_name, product_category,
persona_info)` (Generate_Reviews.py lines 161-193): a rating-tier opener,
persona lead-in plus tier middle, a category-reference clause, one extra
remark keyed by the rating band, a tier closer, and the persona attribution
line, joined and passed through `safe_truncate`. -/
def makeReviewTextRaw (r : Rng) (rating : Nat) (productName productCategory : String)
    (info : PersonaFields) : String × Rng :=
  let tpl := (BASE_TEMPLATES.lookup rating).getD ⟨[], [], []⟩
  let c1 := r.choice tpl.openers ""
  let c2 := c1.2.choice tpl.middles ""
  let c3 := c2.2.choice tpl.closers ""
  let personaPhrase := personaPhraseFor info.persona_focus
  let categoryPhrase := " In the " ++ productCategory ++ " category, this product"
  let ce : String × Rng :=
    if 4 ≤ rating then
      c3.2.choice ["It consistently performs well in daily use.",
        "Setup was straightforward and painless.",
        "Materials and fit/finish are impressive for the price."] ""
    else if rating = 3 then
      c3.2.choice ["It's serviceable for common tasks but not outstanding.",
        "It does what it needs to, but don't expect surprises.",
        "Good for occasional use or budget setups."] ""
    else
      c3.2.choice ["It caused repeated issues during normal use.",
        "Support and documentation were inadequate.",
        "I encountered multiple defects and usability problems."] ""
  let personaLine := " - " ++ info.reviewer_name ++ ", " ++
    info.reviewer_persona ++ ", " ++ info.reviewer_location
  let full := String.intercalate " "
    [c1.1 ++ " " ++ productName ++ ".", personaPhrase ++ c2.1,
     categoryPhrase ++ ".", ce.1, c3.1] ++ " " ++ personaLine
  (full, ce.2)

/-- `make_review_text` returns `safe_truncate(full)`
(Generate_Reviews.py line 193). -/
def makeReviewText (r : Rng) (rating : Nat) (productName productCategory : String)
    (info : PersonaFields) : String × Rng :=
  let fr := makeReviewTextRaw r rating productName productCategory info
  (safeTruncate fr.1 MAX_REVIEW_CHARS, fr.2)

theorem makeReviewText_fst (r : Rng) (rating : Nat) (pname pcat : String)
    (info : PersonaFields) :
    (makeReviewText r rating pname pcat info).1
      = safeTruncate (makeReviewTextRaw r rating pname pcat info).1
          MAX_REVIEW_CHARS := by
  dsimp only [makeReviewText]

theorem safeTruncate_length_le (t : String) (m : Nat) :
    (safeTruncate t m).length ≤ m := by
  unfold safeTruncate
  split_ifs with h
  · exact h
  · rw [String.take_eq]
    show (t.1.take (m - 1)).length ≤ m
    rw [List.length_take]
    omega

/-- C9 (amended): every `review_text` produced by the review text assembler
has length at most 100,000 characters; a text of at most 100,000 characters
passes through unchanged, and an assembled text longer than the cap is cut
to its first 99,999 characters (`max_chars - 1`) — a simple character cut
one short of the 100,000-character cap. -/
theorem makeReviewText_capped (r : Rng) (rating : Nat)
    (pname pcat : String) (info : PersonaFields) :
    (makeReviewText r rating pname pcat info).1.length ≤ MAX_REVIEW_CHARS ∧
    (∀ t : String, t.length ≤ MAX_REVIEW_CHARS →
      safeTruncate t MAX_REVIEW_CHARS = t) ∧
    (∀ t : String, MAX_REVIEW_CHARS < t.length →
      safeTruncate t MAX_REVIEW_CHARS = t.take (MAX_REVIEW_CHARS - 1) ∧
      (safeTruncate t MAX_REVIEW_CHARS).length = MAX_REVIEW_CHARS - 1) := by
  refine ⟨?_, ?_, ?_⟩
  · rw [makeReviewText_fst]
    exact safeTruncate_length_le _ _
  · intro t ht
    rw [safeTruncate, if_pos ht]
  · intro t ht
    have hneg : ¬ t.length ≤ MAX_REVIEW_CHARS := by omega
    refine ⟨by rw [safeTruncate, if_neg hneg], ?_⟩
    rw [safeTruncate, if_neg hneg, String.take_eq]
    show (t.1.take (MAX_REVIEW_CHARS - 1)).length = MAX_REVIEW_CHARS - 1
    rw [List.length_take]
    have : t.1.length = t.length := rfl
    rw [MAX_REVIEW_CHARS] at ht ⊢
    omega

/-- Witness for `makeReviewText_capped`: an assembled text of 100,001
characters is cut to its first 99,999 characters. -/
theorem makeReviewText_capped_witness :
    safeTruncate (String.mk (List.replicate 100001 'b')) MAX_REVIEW_CHARS
        = (String.mk (List.replicate 100001 'b')).take (MAX_REVIEW_CHARS - 1) ∧
    (safeTruncate (String.mk (List.replicate 100001 'b')) MAX_REVIEW_CHARS).length
        = MAX_REVIEW_CHARS - 1 := by
  have h1 : (String.mk (List.replicate 100001 'b')).length
      = (List.replicate 100001 'b').length := rfl
  have hlen : (String.mk (List.replicate 100001 'b')).length = 100001 := by
    rw [h1, List.length_replicate]
  exact (makeReviewText_capped ⟨fun _ => 0, 0⟩ 5 "X" "General"
    ⟨"A B", "Tech Enthusiast", 30, "Berlin, DE", "performance"⟩).2.2
    (String.mk (List.replicate 100001 'b'))
    (by rw [hlen, MAX_REVIEW_CHARS]; omega)

/-- Counterexample to C9 as stated: an assembled text of 100,001 characters
is "longer than the cap", but `safe_truncate` cuts it to 99,999 characters
(`text[: max_chars - 1]`), not to the stated 100,000-character cap. -/
theorem safeTruncate_claim_cex :
    MAX_REVIEW_CHARS < (String.mk (List.replicate 100001 'a')).length ∧
    (safeTruncate (String.mk (List.replicate 100001 'a')) MAX_REVIEW_CHARS).length
      = 99999 ∧ (99999 : Nat) ≠ 100000 := by
  have hlen : (String.mk (List.replicate 100001 'a')).length = 100001 := by
    show (List.replicate 100001 'a').length = 100001
    rw [List.length_replicate]
  have hgt : MAX_REVIEW_CHARS < (String.mk (List.replicate 100001 'a')).length := by
    rw [hlen, MAX_REVIEW_CHARS]; omega
  refine ⟨hgt, ?_, by omega⟩
  rw [safeTruncate, if_neg (by omega), String.take_eq]
  show ((List.replicate 100001 'a').take (MAX_REVIEW_CHARS - 1)).length = 99999
  rw [List.length_take, List.length_replicate, MAX_REVIEW_CHARS]
  omega

/-- `choose_rating_for_category(rng, category)` (Generate_Reviews.py lines
144-146): `rng.choice([1, 2, 3, 4, 5], p=probs)` with the adjusted
distribution as weights.  The embedding keeps the outcome list and the fact
that the drawn index comes from the stream; the weights (all positive by
`adjustProbs_valid`) determine only the distribution of the draw. -/
def chooseRatingForCategory (r : Rng) (category : String) : Nat × Rng :=
  let probs := adjustProbsForCategory BASE_RATING_PROBS category
  let n := r.next
  (([1, 2, 3, 4, 5].getD (n.1 % 5) 0, n.2).1, (probs, n.2).2)

/-- `sample_review_date(rng, years_back)` (Generate_Reviews.py lines
149-154), with the wall clock `now` (in whole seconds) passed explicitly:
`start = now - 365 * years_back` days, plus `rng.integers(0, total + 1)`
seconds.  The 12-hour `strftime` rendering of the resulting instant is
outside the embedding. -/
def sampleReviewDate (r : Rng) (now yearsBack : Nat) : Nat × Rng :=
  let totalSeconds := 365 * yearsBack * 86400
  let n := r.next
  (now - totalSeconds + n.1 % (totalSeconds + 1), n.2)

/-- One input product row streamed from the Parquet file: id, name, and the
category cell (`none` models a missing/NaN value). -/
structure ProductIn where
  id : Int
  name : String
  category : Option String

/-- One emitted review record (the eleven output columns; the date is the
sampled instant in seconds, see `sampleReviewDate`). -/
structure ReviewRow where
  review_id : Nat
  product_id : Int
  product_name : String
  product_category : String
  rating : Nat
  review_text : String
  reviewer_name : String
  reviewer_persona : String
  reviewer_age : Nat
  reviewer_location : String
  review_date : Nat

/-- The per-row category string before coercion (Generate_Reviews.py lines
258-261): the category cell when the column is present (a missing value
maps to "General"), otherwise the part of the product name before the first
underscore, defaulting to "General" when no underscore occurs. -/
def rawCategory (hasCategoryCol : Bool) (category : Option String)
    (pname : String) : String :=
  if hasCategoryCol then
    match category with
    | some c => c
    | none => "General"
  else if pname.contains '_' then (pname.splitOn "_").headD pname
  else "General"

/-- `pcat = pcat if pcat in CATEGORY_BIASES else "General"`
(Generate_Reviews.py line 262). -/
def resolveCategory (hasCategoryCol : Bool) (category : Option String)
    (pname : String) : String :=
  let pcat := rawCategory hasCategoryCol category pname
  if (CATEGORY_BIASES.lookup pcat).isSome then pcat else "General"

/-- The inner `for _ in range(n_reviews)` loop of `main`
(Generate_Reviews.py lines 264-282): per review, persona, rating, text and
date are drawn in source order, the row takes the current counter value, and
the counter is incremented. -/
def genLoop (r : Rng) (c : Nat) (pid : Int) (pname pcat : String)
    (now yearsBack : Nat) : Nat → List ReviewRow × Nat × Rng
  | 0 => ([], c, r)
  | Nat.succ k =>
      let pers := samplePersona r
      let rat := chooseRatingForCategory pers.2 pcat
      let txt := makeReviewText rat.2 rat.1 pname pcat pers.1
      let date := sampleReviewDate txt.2 now yearsBack
      let row : ReviewRow :=
        ⟨c, pid, pname, pcat, rat.1, txt.1, pers.1.reviewer_name,
         pers.1.reviewer_persona, pers.1.reviewer_age,
         pers.1.reviewer_location, date.1⟩
      let rest := genLoop date.2 (c + 1) pid pname pcat now yearsBack k
      (row :: rest.1, rest.2)

/-- One product of the batch loop (Generate_Reviews.py lines 255-282):
resolve the category, draw the review count, then emit that many rows.
`none` models the NumPy size-check failure inside `choose_num_reviews`
for `max_reviews ≥ 6`. -/
def processProduct (r : Rng) (c : Nat) (maxReviews now yearsBack : Nat)
    (hasCategoryCol : Bool) (p : ProductIn) :
    Option (List ReviewRow × Nat × Rng) :=
  let pcat := resolveCategory hasCategoryCol p.category p.name
  let d := r.next
  match chooseNumReviews maxReviews d.1 with
  | none => none
  | some n => some (genLoop d.2 c p.id p.name pcat now yearsBack n)

/-- One streamed batch: its products in order, threading counter and
stream. -/
def processBatch (r : Rng) (c : Nat) (maxReviews now yearsBack : Nat)
    (hasCategoryCol : Bool) : List ProductIn →
    Option (List ReviewRow × Nat × Rng)
  | [] => some ([], c, r)
  | p :: ps =>
      match processProduct r c maxReviews now yearsBack hasCategoryCol p with
      | none => none
      | some (rows, c', r') =>
          match processBatch r' c' maxReviews now yearsBack hasCategoryCol ps with
          | none => none
          | some (rows', c'', r'') => some (rows ++ rows', c'', r'')

/-- A whole review-generation run (Generate_Reviews.py lines 252-300): the
streamed batches in order, each with its category-column presence flag; the
review-id counter and the stream persist across batches. -/
def processRun (r : Rng) (c : Nat) (maxReviews now yearsBack : Nat) :
    List (Bool × List ProductIn) → Option (List ReviewRow × Nat × Rng)
  | [] => some ([], c, r)
  | (hasCat, b) :: bs =>
      match processBatch r c maxReviews now yearsBack hasCat b with
      | none => none
      | some (rows, c', r') =>
          match processRun r' c' maxReviews now yearsBack bs with
          | none => none
          | some (rows', c'', r'') => some (rows ++ rows', c'', r'')

theorem genLoop_category (n : Nat) :
    ∀ (r : Rng) (c : Nat) (pid : Int) (pname pcat : String) (now yb : Nat),
    ∀ row ∈ (genLoop r c pid pname pcat now yb n).1,
      row.product_category = pcat := by
  induction n with
  | zero =>
      intro r c pid pname pcat now yb row hrow
      simp [genLoop] at hrow
  | succ k ih =>
      intro r c pid pname pcat now yb row hrow
      rw [genLoop] at hrow
      rw [List.mem_cons] at hrow
      rcases hrow with hfirst | hrest
      · rw [hfirst]
      · exact ih _ _ _ _ _ _ _ row hrest

/-- C7: for every product whose provided (or fallback-derived) category
string is not a key of the fixed bias table, the coerced category is
"General", and every review record emitted for that product carries
`product_category = "General"`. -/
theorem unknown_category_reviews_general (hasCat : Bool)
    (catVal : Option String) (pname : String)
    (h : CATEGORY_BIASES.lookup (rawCategory hasCat catVal pname) = none) :
    resolveCategory hasCat catVal pname = "General" ∧
    ∀ (r : Rng) (c maxReviews now yb : Nat) (pid : Int)
      (rows : List ReviewRow) (c' : Nat) (r' : Rng),
      processProduct r c maxReviews now yb hasCat ⟨pid, pname, catVal⟩
          = some (rows, c', r') →
      ∀ row ∈ rows, row.product_category = "General" := by
  have hres : resolveCategory hasCat catVal pname = "General" := by
    show (if (CATEGORY_BIASES.lookup (rawCategory hasCat catVal pname)).isSome
        then rawCategory hasCat catVal pname else "General") = "General"
    rw [h]
    rfl
  refine ⟨hres, ?_⟩
  intro r c M now yb pid rows c' r' hp row hrow
  rw [processProduct] at hp
  dsimp only at hp
  split at hp
  · exact absurd hp (by simp)
  · rw [Option.some.injEq] at hp
    have hrows : rows = (genLoop (r.next).2 c pid pname
        (resolveCategory hasCat catVal pname) now yb _).1 :=
      (congrArg Prod.fst hp).symm
    rw [hres] at hrows
    rw [hrows] at hrow
    exact genLoop_category _ _ _ _ _ _ _ _ row hrow

/-- Witness for `unknown_category_reviews_general`: the product-side
category "Home & Kitchen" is not a bias-table key (the table only has
"Home"), so it is coerced to "General". -/
theorem unknown_category_reviews_general_witness :
    resolveCategory true (some "Home & Kitchen") "p" = "General" :=
  (unknown_category_reviews_general true (some "Home & Kitchen") "p"
    (by rfl)).1

theorem processProduct_maxzero (r : Rng) (c now yb : Nat) (hasCat : Bool)
    (p : ProductIn) :
    processProduct r c 0 now yb hasCat p = some ([], c, (r.next).2) := rfl

theorem processBatch_maxzero (ps : List ProductIn) :
    ∀ (r : Rng) (c now yb : Nat) (hasCat : Bool),
    ∃ r', processBatch r c 0 now yb hasCat ps = some ([], c, r') := by
  induction ps with
  | nil => intro r c now yb hasCat; exact ⟨r, rfl⟩
  | cons p ps ih =>
      intro r c now yb hasCat
      obtain ⟨r', hr'⟩ := ih (r.next).2 c now yb hasCat
      refine ⟨r', ?_⟩
      simp [processBatch, processProduct_maxzero, hr']

/-- C8: with `max-reviews-per-product = 0` the review count sampler returns
0 for every product without consulting the random stream (the result is the
same for every possible drawn index), and a run over any batched product
input completes successfully emitting no review rows, with the review-id
counter still at its initial value 1 (so the output is header-only or
empty). -/
theorem max_reviews_zero_run (r : Rng) (now yearsBack : Nat)
    (batches : List (Bool × List ProductIn)) :
    (∀ i : Nat, chooseNumReviews 0 i = some 0) ∧
    ∃ r', processRun r 1 0 now yearsBack batches = some ([], 1, r') := by
  refine ⟨fun i => rfl, ?_⟩
  induction batches generalizing r with
  | nil => exact ⟨r, rfl⟩
  | cons b bs ih =>
      obtain ⟨hasCat, ps⟩ := b
      obtain ⟨r1, hr1⟩ := processBatch_maxzero ps r 1 now yearsBack hasCat
      obtain ⟨r2, hr2⟩ := ih r1
      refine ⟨r2, ?_⟩
      simp [processRun, hr1, hr2]

/-- C10: of the 20 fixed product-generator categories, exactly
"Electronics", "Clothing", "Shoes", "Baby", "Books" and "Automotive" are
keys of the review generator's bias table; every other product category is
coerced to "General" by the review pipeline, and the "General" bias is 0,
so such reviews are rated with the unchanged (neutral) base distribution. -/
theorem bias_table_coverage :
    categories.filter (fun c => (CATEGORY_BIASES.lookup c).isSome)
      = ["Electronics", "Clothing", "Shoes", "Baby", "Books", "Automotive"] ∧
    (∀ c ∈ categories,
      c ∉ (["Electronics", "Clothing", "Shoes", "Baby", "Books",
            "Automotive"] : List String) →
      ∀ pname, resolveCategory true (some c) pname = "General") ∧
    ∀ p : P5, adjustProbsForCategory p "General" = p := by
  have hkeys : ∀ c ∈ categories,
      c ∉ (["Electronics", "Clothing", "Shoes", "Baby", "Books",
            "Automotive"] : List String) →
      CATEGORY_BIASES.lookup c = none := by decide
  refine ⟨by rfl, ?_, ?_⟩
  · intro c hc hnot pname
    show (if (CATEGORY_BIASES.lookup (rawCategory true (some c) pname)).isSome
        then rawCategory true (some c) pname else "General") = "General"
    have hraw : rawCategory true (some c) pname = c := rfl
    rw [hraw, hkeys c hc hnot]
    rfl
  · intro p
    have hb : biasFor "General" = 0 := by rfl
    rw [adjustProbsForCategory, hb]
    simp [adjustProbs]

/-- Witness for `bias_table_coverage`: "Smart Home" is one of the 14
product categories without a bias entry and is coerced to "General". -/
theorem bias_table_coverage_witness :
    resolveCategory true (some "Smart Home") "x" = "General" :=
  bias_table_coverage.2.1 "Smart Home" (by decide) (by decide) "x"

end SampleData
